import Mathlib

/-
  Verification development for the omnis-bouncer admission-control reverse proxy.

  Shallow embedding conventions:
  - Rust usize/u64 become Nat; isize/i64 become Int.
  - uuid::Uuid values are abstracted as Nat (only identity matters here).
  - std::time::Instant values are abstracted as Nat ticks;
    Instant::duration_since saturates at zero, exactly like Nat subtraction.
  - HashMap / HashSet values are modelled as association lists / lists;
    HashMap::insert replaces the previous binding.
  - Fallible conversions return Except, mirroring Result<_, Error>.
-/

namespace OmnisBouncer

/-! Error taxonomy (src/src/errors.rs). Only the variants the claims touch. -/

inductive RsError where
  | StoreCapacityOutOfRange (s : String)
  | QueueEnabledOutOfRange (s : String)
  | QueueIdInvalid (s : String)
  deriving DecidableEq, Repr

/-! StoreCapacity (src/src/queue/models.rs). -/

inductive StoreCapacity where
  | Sized (n : Nat)
  | Unlimited
  deriving DecidableEq, Repr

/-- Serialize for StoreCapacity (src/src/queue/models.rs lines 59-69):
Sized(size) serializes as the integer size (as u64); Unlimited serializes as 0. -/
def StoreCapacity.serialize : StoreCapacity → Int
  | .Sized n => (n : Int)
  | .Unlimited => 0

/-- Deserialize for StoreCapacity, visit_i64 (src/src/queue/models.rs lines 87-95):
every negative value maps to Unlimited, every non-negative value to Sized(value). -/
def StoreCapacity.deserialize_i64 (v : Int) : StoreCapacity :=
  if v < 0 then .Unlimited else .Sized v.toNat

/-- TryFrom isize for StoreCapacity (src/src/queue/models.rs lines 127-137):
values below -1 are rejected with StoreCapacityOutOfRange, -1 is Unlimited,
non-negative values are Sized. -/
def StoreCapacity.try_from_isize (v : Int) : Except RsError StoreCapacity :=
  if v < -1 then .error (RsError.StoreCapacityOutOfRange (toString v))
  else if v = -1 then .ok .Unlimited
  else .ok (.Sized v.toNat)

/-- From StoreCapacity for isize (src/src/queue/models.rs lines 160-167):
Sized(size) maps to size, Unlimited maps to -1 (the external-store encoding). -/
def StoreCapacity.isize_from : StoreCapacity → Int
  | .Sized n => (n : Int)
  | .Unlimited => -1

/-- From isize for StoreCapacity in the legacy revision (src/src/queue.rs
lines 277-288): values below -1 log a warning and map to Unlimited, -1 is
Unlimited, non-negative values are Sized. No error is raised. -/
def StoreCapacity.legacy_from_isize (v : Int) : StoreCapacity :=
  if v < -1 then .Unlimited
  else if v = -1 then .Unlimited
  else .Sized v.toNat

/-- Claim C6 (counterexample): the claim says every conversion of an integer
v < -1 into a StoreCapacity is rejected with a StoreCapacityOutOfRange error,
but the serde deserializer (visit_i64) silently accepts -2 as Unlimited, and
the legacy From<isize> conversion does the same. -/
theorem C6_counterexample :
    StoreCapacity.deserialize_i64 (-2) = StoreCapacity.Unlimited ∧
    StoreCapacity.legacy_from_isize (-2) = StoreCapacity.Unlimited := by
  constructor <;> rfl

/-- Claim C6 (amended): for the TryFrom<isize> conversion, v = -1 yields
Unlimited, v ≥ 0 yields Sized(v), and every v < -1 is rejected with a
StoreCapacityOutOfRange error; the serde deserializer and the legacy
From<isize> instead map every negative value to Unlimited silently. -/
theorem C6_try_from_isize (v : Int) :
    (v = -1 → StoreCapacity.try_from_isize v = .ok .Unlimited) ∧
    (0 ≤ v → StoreCapacity.try_from_isize v = .ok (.Sized v.toNat)) ∧
    (v < -1 →
      StoreCapacity.try_from_isize v =
        .error (RsError.StoreCapacityOutOfRange (toString v))) ∧
    (v < 0 → StoreCapacity.deserialize_i64 v = .Unlimited) := by
  refine ⟨?_, ?_, ?_, ?_⟩
  · intro h
    subst h
    rfl
  · intro h
    unfold StoreCapacity.try_from_isize
    rw [if_neg (by omega), if_neg (by omega)]
  · intro h
    unfold StoreCapacity.try_from_isize
    rw [if_pos h]
  · intro h
    unfold StoreCapacity.deserialize_i64
    rw [if_pos h]

/-- Claim C6 (witness): concrete instances of the amended claim at v = -1,
v = 7 and v = -2. -/
theorem C6_witness :
    StoreCapacity.try_from_isize (-1) = .ok .Unlimited ∧
    StoreCapacity.try_from_isize 7 = .ok (.Sized 7) ∧
    StoreCapacity.try_from_isize (-2) =
      .error (RsError.StoreCapacityOutOfRange (toString (-2 : Int))) ∧
    StoreCapacity.deserialize_i64 (-2) = .Unlimited :=
  ⟨(C6_try_from_isize (-1)).1 rfl,
   (C6_try_from_isize 7).2.1 (by decide),
   (C6_try_from_isize (-2)).2.2.1 (by decide),
   (C6_try_from_isize (-2)).2.2.2 (by decide)⟩

/-! Upstream pool (src/src/upstream.rs). -/

/-- Upstream specification (src/src/upstream.rs lines 15-20). -/
structure Upstream where
  uri : String
  connections : Nat
  sticky_sessions : Nat
  deriving DecidableEq, Repr

/-- UpstreamServer (src/src/upstream.rs lines 63-72). The tokio Semaphore is
modelled by its current available-permit count; the sticky-session HashMap
from Uuid to Instant is an association list from Nat to Nat ticks. -/
structure UpstreamServer where
  id : Nat
  max_connections : Nat
  available_permits : Nat
  max_sticky_sessions : Nat
  sticky_sessions : List (Nat × Nat)
  uri : String
  removed : Bool
  deriving DecidableEq, Repr

/-- UpstreamServer::new (src/src/upstream.rs lines 85-97): the semaphore is
initialized with the configured connections limit, the sticky map empty,
removed false. -/
def UpstreamServer.new (id : Nat) (upstream : Upstream) : UpstreamServer :=
  { id := id
    max_connections := upstream.connections
    available_permits := upstream.connections
    max_sticky_sessions := upstream.sticky_sessions
    sticky_sessions := []
    uri := upstream.uri
    removed := false }

/-- UpstreamServer::expire_sticky (src/src/upstream.rs lines 148-155):
extract_if removes from the map (and returns) exactly the entries whose
predicate holds; the code passes the predicate
now.duration_since(last_touch) < expiry, so the entries it drops are the
ones YOUNGER than the expiry. Returns the updated server and the set of
removed QIDs (the extracted keys). -/
def UpstreamServer.expire_sticky (s : UpstreamServer) (now expiry : Nat) :
    UpstreamServer × List Nat :=
  let extracted := s.sticky_sessions.filter (fun p => now - p.2 < expiry)
  let remaining := s.sticky_sessions.filter (fun p => ¬ (now - p.2 < expiry))
  ({ s with sticky_sessions := remaining }, extracted.map (·.1))

/-- Pool, the inner unlocked upstream container (src/src/upstream.rs
lines 286-289). -/
structure Pool where
  pool : List UpstreamServer
  next_id : Nat
  deriving DecidableEq, Repr

/-- Pool::new (src/src/upstream.rs lines 292-298). -/
def Pool.new : Pool := { pool := [], next_id := 1 }

/-- Pool::expire_sticky (src/src/upstream.rs lines 465-473): captures one
shared now, calls expire_sticky on every server in order and accumulates the
union of the removed QID sets (the union of disjoint key sets is modelled as
list concatenation). -/
def Pool.expire_sticky (p : Pool) (now expiry : Nat) : Pool × List Nat :=
  let results := p.pool.map (fun s => s.expire_sticky now expiry)
  ({ p with pool := results.map (·.1) },
   (results.map (·.2)).foldl (fun acc l => acc ++ l) [])

/-- UpstreamPool::expire_sticky_sessions (src/src/upstream.rs lines 256-259):
delegates to Pool::expire_sticky with the pool-configured sticky expiry. -/
def UpstreamPool.expire_sticky_sessions
    (sticky_expiry_secs : Nat) (p : Pool) (now : Nat) : Pool × List Nat :=
  p.expire_sticky now sticky_expiry_secs

/-- Pool::add_upstreams (src/src/upstream.rs lines 484-498): a set of URIs is
taken from the CURRENT pool only, incoming entries whose URI is in that set
are filtered out, and every surviving entry is pushed with the next id. -/
def Pool.add_upstreams (p : Pool) (upstreams : List Upstream) : Pool :=
  let uri_set := p.pool.map (fun s => s.uri)
  let new_upstreams := upstreams.filter (fun u => ¬ uri_set.contains u.uri)
  new_upstreams.foldl
    (fun acc u =>
      { pool := acc.pool ++ [UpstreamServer.new acc.next_id u]
        next_id := acc.next_id + 1 })
    p

/-- Claim C1 (code evaluation at the failing input): for the sticky map
with q1 last touched at tick 0 and q2 last touched at tick 95, at now = 100
with a 50-tick expiry, the claim (and the function's own doc comment,
"Remove all expired sticky IDs") requires q1 (age 100 ≥ 50) to be dropped and
q2 (age 5 < 50) to be kept; the code instead keeps q1 and removes q2,
because the extract_if predicate is inverted. -/
theorem C1_expire_sticky_inverted :
    (UpstreamServer.expire_sticky
      { id := 1, max_connections := 4, available_permits := 4,
        max_sticky_sessions := 2, sticky_sessions := [(1, 0), (2, 95)],
        uri := "http://a", removed := false } 100 50).2 = [2] ∧
    (UpstreamServer.expire_sticky
      { id := 1, max_connections := 4, available_permits := 4,
        max_sticky_sessions := 2, sticky_sessions := [(1, 0), (2, 95)],
        uri := "http://a", removed := false } 100 50).1.sticky_sessions
      = [(1, 0)] ∧
    (UpstreamPool.expire_sticky_sessions 50
      { pool := [{ id := 1, max_connections := 4, available_permits := 4,
                   max_sticky_sessions := 2, sticky_sessions := [(1, 0), (2, 95)],
                   uri := "http://a", removed := false }], next_id := 2 }
      100).2 = [2] := by
  refine ⟨rfl, rfl, rfl⟩

/-- Claim C9 (counterexample): starting from the empty pool, a single
add_upstreams call whose input list contains the same URI twice adds two
UpstreamServers with that URI, because the duplicate check consults only the
pre-existing pool, so a URI can appear on more than one server. -/
theorem C9_counterexample :
    ((Pool.add_upstreams Pool.new
        [{ uri := "http://a", connections := 1, sticky_sessions := 1 },
         { uri := "http://a", connections := 2, sticky_sessions := 2 }]).pool.filter
      (fun s => s.uri == "http://a")).length = 2 := by
  rfl

/-- Helper describing the servers appended by the add_upstreams fold,
with ids assigned sequentially from a starting id. -/
def addServersFrom (startId : Nat) : List Upstream → List UpstreamServer
  | [] => []
  | u :: rest => UpstreamServer.new startId u :: addServersFrom (startId + 1) rest

theorem add_upstreams_foldl_eq (l : List Upstream) :
    ∀ q : Pool,
      (l.foldl
        (fun acc u =>
          { pool := acc.pool ++ [UpstreamServer.new acc.next_id u]
            next_id := acc.next_id + 1 })
        q).pool = q.pool ++ addServersFrom q.next_id l := by
  induction l with
  | nil => intro q; simp [addServersFrom]
  | cons u rest ih =>
      intro q
      simp only [List.foldl_cons, addServersFrom]
      rw [ih]
      simp

theorem addServersFrom_uri_mem (l : List Upstream) :
    ∀ startId s, s ∈ addServersFrom startId l → s.uri ∈ l.map Upstream.uri := by
  induction l with
  | nil => intro startId s h; simp [addServersFrom] at h
  | cons u rest ih =>
      intro startId s h
      simp only [addServersFrom, List.mem_cons] at h
      rcases h with h | h
      · subst h; simp [UpstreamServer.new]
      · simp only [List.map_cons, List.mem_cons]
        exact Or.inr (ih (startId + 1) s h)

theorem add_upstreams_pool_eq (p : Pool) (ups : List Upstream) :
    (p.add_upstreams ups).pool =
      p.pool ++ addServersFrom p.next_id
        (ups.filter (fun u => ¬ (p.pool.map (fun s => s.uri)).contains u.uri)) := by
  unfold Pool.add_upstreams
  exact add_upstreams_foldl_eq _ p

/-- Claim C9 (amended): add_upstreams skips exactly the entries whose URI is
already present in the pool BEFORE the call: every pre-existing server
survives unchanged, and for such a URI the number of servers carrying it does
not change. Entries carrying the same new URI twice within one input list
are, however, both added (see the counterexample). -/
theorem C9_add_upstreams_skips_pool_duplicates
    (p : Pool) (ups : List Upstream) (u : String)
    (hu : u ∈ p.pool.map (fun s => s.uri)) :
    (∀ s ∈ p.pool, s ∈ (p.add_upstreams ups).pool) ∧
    ((p.add_upstreams ups).pool.filter (fun s => s.uri == u)).length =
      (p.pool.filter (fun s => s.uri == u)).length := by
  constructor
  · intro s hs
    rw [add_upstreams_pool_eq]
    exact List.mem_append_left _ hs
  · rw [add_upstreams_pool_eq, List.filter_append]
    have hnil :
        (addServersFrom p.next_id
          (ups.filter
            (fun v => ¬ (p.pool.map (fun s => s.uri)).contains v.uri))).filter
          (fun s => s.uri == u) = [] := by
      rw [List.filter_eq_nil_iff]
      intro s hs
      have hmem := addServersFrom_uri_mem _ _ _ hs
      simp only [List.mem_map, List.mem_filter] at hmem
      obtain ⟨v, ⟨_, hv⟩, hvuri⟩ := hmem
      simp only [List.contains_eq_any_beq, List.any_eq_true, beq_iff_eq,
        decide_eq_true_eq, not_exists, not_and] at hv
      simp only [List.mem_map] at hu
      obtain ⟨t, ht, htu⟩ := hu
      intro hcon
      apply hv u (by exact List.mem_map.mpr ⟨t, ht, htu⟩)
      rw [hvuri]
      exact eq_of_beq hcon
    rw [hnil]
    simp

/-- Claim C9 (witness): a concrete instance of the amended claim, with a pool
already holding URI a and an input list repeating URI a. -/
theorem C9_witness :
    ("http://a" ∈ (Pool.add_upstreams Pool.new
        [{ uri := "http://a", connections := 1, sticky_sessions := 1 }]).pool.map
          (fun s => s.uri)) ∧
    (((Pool.add_upstreams
        (Pool.add_upstreams Pool.new
          [{ uri := "http://a", connections := 1, sticky_sessions := 1 }])
        [{ uri := "http://a", connections := 2, sticky_sessions := 2 }]).pool.filter
      (fun s => s.uri == "http://a")).length =
      (((Pool.add_upstreams Pool.new
          [{ uri := "http://a", connections := 1, sticky_sessions := 1 }]).pool.filter
        (fun s => s.uri == "http://a")).length)) := by
  refine ⟨by decide, ?_⟩
  exact (C9_add_upstreams_skips_pool_duplicates
    (Pool.add_upstreams Pool.new
      [{ uri := "http://a", connections := 1, sticky_sessions := 1 }])
    [{ uri := "http://a", connections := 2, sticky_sessions := 2 }]
    "http://a" (by decide)).2

/-! Route classification (src/src/omnis.rs and src/src/reverse_proxy.rs).
Both files compile the same case-insensitive path regexes; the regexes are
ASCII-anchored prefixes (or, for favicon, a full match with one wildcard
character), so they are embedded as direct string tests on the
ASCII-lowercased path. -/

/-- HTTP methods, mirroring http::Method for the constants the code compares
against. -/
inductive Method where
  | GET
  | HEAD
  | POST
  | PUT
  | DELETE
  | CONNECT
  | OPTIONS
  | TRACE
  | PATCH
  deriving DecidableEq, Repr

/-- Method::as_str. -/
def Method.as_str : Method → String
  | .GET => "GET"
  | .HEAD => "HEAD"
  | .POST => "POST"
  | .PUT => "PUT"
  | .DELETE => "DELETE"
  | .CONNECT => "CONNECT"
  | .OPTIONS => "OPTIONS"
  | .TRACE => "TRACE"
  | .PATCH => "PATCH"

/-- ASCII lowercase folding, the effect of the case-insensitive regex flag on
the ASCII-only patterns the code compiles. -/
def ascii_lower (c : Char) : Char :=
  if 'A' ≤ c ∧ c ≤ 'Z' then Char.ofNat (c.toNat + 32) else c

/-- Character list of a path after ASCII lowercase folding. -/
def lower_chars (s : String) : List Char :=
  s.data.map ascii_lower

/-- FAVICON_RE, the case-insensitive regex anchored on both sides matching
slash favicon, any single non-newline character, then ico (the dot in the
pattern is an unescaped wildcard). -/
def favicon_match (path : String) : Bool :=
  match lower_chars path with
  | '/' :: 'f' :: 'a' :: 'v' :: 'i' :: 'c' :: 'o' :: 'n' :: c :: 'i' :: 'c' :: 'o' :: [] =>
      c != '\n'
  | _ => false

/-- ASSET_RE, the case-insensitive prefix regex for the six jschtml asset
directories. -/
def asset_match (path : String) : Bool :=
  ["css", "fonts", "icons", "images", "scripts", "themes"].any
    (fun d => ("/jschtml/" ++ d ++ "/").data.isPrefixOf (lower_chars path))

/-- HTML_RE, the case-insensitive suffix regex for .htm and .html. -/
def html_match (path : String) : Bool :=
  ".htm".data.isSuffixOf (lower_chars path) ||
    ".html".data.isSuffixOf (lower_chars path)

/-- is_static_asset (src/src/omnis.rs lines 588-590). -/
def is_static_asset (path : String) : Bool :=
  favicon_match path || asset_match path

/-- is_javascript_client (src/src/omnis.rs lines 592-594), JSCLIENT_RE. -/
def is_javascript_client (path : String) : Bool :=
  "/jschtml".data.isPrefixOf (lower_chars path) ||
    "/jsclient".data.isPrefixOf (lower_chars path) ||
    "/push".data.isPrefixOf (lower_chars path)

/-- is_rest_api (src/src/omnis.rs lines 596-598), RESTAPI_RE. -/
def is_rest_api (path : String) : Bool :=
  "/api".data.isPrefixOf (lower_chars path)

/-- is_ultra_thin (src/src/omnis.rs lines 600-602), ULTRATHIN_RE. -/
def is_ultra_thin (path : String) : Bool :=
  "/ultra".data.isPrefixOf (lower_chars path)

/-- WaitingRoom (src/src/waiting_room.rs lines 17-21). -/
inductive WaitingRoom where
  | Required
  | Skip
  deriving DecidableEq, Repr

/-- ConnectionType (src/src/omnis.rs lines 604-610). -/
inductive ConnectionType where
  | CacheLoad
  | StickySession
  | Regular (w : WaitingRoom)
  | Reject
  deriving DecidableEq, Repr

/-- ConnectionType::requires_waiting_room (src/src/omnis.rs lines 638-646;
identical in src/src/reverse_proxy.rs lines 456-464). -/
def ConnectionType.requires_waiting_room : ConnectionType → Bool
  | .StickySession => true
  | .Regular .Required => true
  | .Regular .Skip => false
  | .CacheLoad => false
  | .Reject => false

namespace Omnis

/-- ConnectionType::new in the dispatcher wired into the app
(src/src/omnis.rs lines 612-636): GET static assets are CacheLoad; JS-client
paths are StickySession; api paths are Regular(Skip); ultra-thin paths, or
any remaining path when the ultra-thin fallback is enabled, are
Regular(Required) for GET and Regular(Skip) otherwise; everything else is
Reject. -/
def connection_type_new
    (method : Method) (path : String) (ultra_thin_fallback : Bool) :
    ConnectionType :=
  if method = Method.GET ∧ is_static_asset path = true then .CacheLoad
  else if is_javascript_client path = true then .StickySession
  else if is_rest_api path = true then .Regular .Skip
  else if is_ultra_thin path = true ∨ ultra_thin_fallback = true then
    if method = Method.GET then .Regular .Required else .Regular .Skip
  else .Reject

end Omnis

namespace ReverseProxy

/-- is_html_page (src/src/reverse_proxy.rs lines 390-404): true when the
Accept header parses to a mime whose essence is text/html, or the path
matches HTML_RE. The external mime parse is abstracted as the already-parsed
essence (none when the header is absent or unparsable). -/
def is_html_page (accept_essence : Option String) (path : String) : Bool :=
  accept_essence == some "text/html" || html_match path

/-- ConnectionType::new in the legacy reverse-proxy revision
(src/src/reverse_proxy.rs lines 430-454): it has no fallback mode, and for
ultra-thin paths it requires the request to be a GET that looks like an HTML
page before assigning Regular(Required). -/
def connection_type_new
    (method : Method) (accept_essence : Option String) (path : String) :
    ConnectionType :=
  if method = Method.GET ∧ is_static_asset path = true then .CacheLoad
  else if is_javascript_client path = true then .StickySession
  else if is_rest_api path = true then .Regular .Skip
  else if is_ultra_thin path = true then
    if method = Method.GET ∧ is_html_page accept_essence path = true then
      .Regular .Required
    else .Regular .Skip
  else .Reject

end ReverseProxy

/-- Claim C4 (counterexample): the claim says the route classifier returns
Regular(Required) for GET /ultra, but the classifier in
src/src/reverse_proxy.rs (one of the claim's two cited sources) classifies a
GET /ultra request without an HTML Accept header as Regular(Skip). -/
theorem C4_counterexample :
    ReverseProxy.connection_type_new Method.GET none "/ultra" =
      ConnectionType.Regular WaitingRoom.Skip ∧
    ReverseProxy.connection_type_new Method.GET none "/ultra" ≠
      ConnectionType.Regular WaitingRoom.Required := by
  refine ⟨by decide, by decide⟩

/-- Claim C4 (amended): for the classifier of the dispatcher wired into the
app (src/src/omnis.rs), the result is CacheLoad iff the method is GET and the
path matches favicon or the jschtml asset directories; GET /ultra is
Regular(Required), as is any path left unclassified when fallback is enabled
and the method is GET; non-GET ultra-thin requests are Regular(Skip); and
requires_waiting_room holds exactly for StickySession and Regular(Required).
The legacy reverse_proxy.rs classifier additionally requires GET /ultra to
look like an HTML page and has no fallback mode. -/
theorem C4_classifier (m : Method) (p : String) (fb : Bool) :
    (Omnis.connection_type_new m p fb = ConnectionType.CacheLoad ↔
      (m = Method.GET ∧ is_static_asset p = true)) ∧
    (Omnis.connection_type_new Method.GET "/ultra" fb =
      ConnectionType.Regular WaitingRoom.Required) ∧
    (is_static_asset p = false → is_javascript_client p = false →
      is_rest_api p = false → is_ultra_thin p = false →
      Omnis.connection_type_new Method.GET p true =
        ConnectionType.Regular WaitingRoom.Required) ∧
    (m ≠ Method.GET → is_ultra_thin p = true →
      is_javascript_client p = false → is_rest_api p = false →
      Omnis.connection_type_new m p fb =
        ConnectionType.Regular WaitingRoom.Skip) ∧
    (∀ ct : ConnectionType,
      ct.requires_waiting_room = true ↔
        (ct = ConnectionType.StickySession ∨
          ct = ConnectionType.Regular WaitingRoom.Required)) := by
  refine ⟨?_, ?_, ?_, ?_, ?_⟩
  · constructor
    · intro h
      by_cases hc : (m = Method.GET ∧ is_static_asset p = true)
      · exact hc
      · exfalso
        unfold Omnis.connection_type_new at h
        rw [if_neg hc] at h
        split at h
        · exact absurd h (by decide)
        · split at h
          · exact absurd h (by decide)
          · split at h
            · split at h
              · exact absurd h (by decide)
              · exact absurd h (by decide)
            · exact absurd h (by decide)
    · intro hc
      unfold Omnis.connection_type_new
      rw [if_pos hc]
  · unfold Omnis.connection_type_new
    rw [if_neg (by decide), if_neg (by decide), if_neg (by decide),
      if_pos (Or.inl (by decide)), if_pos rfl]
  · intro h1 h2 h3 h4
    unfold Omnis.connection_type_new
    rw [if_neg (by simp [h1]), if_neg (by simp [h2]), if_neg (by simp [h3]),
      if_pos (Or.inr rfl), if_pos rfl]
  · intro h1 h2 h3 h4
    unfold Omnis.connection_type_new
    rw [if_neg (by simp [h1]), if_neg (by simp [h3]), if_neg (by simp [h4]),
      if_pos (Or.inl h2), if_neg h1]
  · intro ct
    match ct with
    | .CacheLoad => exact ⟨by decide, by simp⟩
    | .StickySession => exact ⟨fun _ => Or.inl rfl, fun _ => rfl⟩
    | .Regular .Required => exact ⟨fun _ => Or.inr rfl, fun _ => rfl⟩
    | .Regular .Skip => exact ⟨by decide, by simp⟩
    | .Reject => exact ⟨by decide, by simp⟩

/-- Claim C4 (witness): the amended classifier claim at concrete inputs,
covering the fallback branch and the non-GET ultra-thin branch. -/
theorem C4_witness :
    (Omnis.connection_type_new Method.GET "/favicon.ico" false =
        ConnectionType.CacheLoad ↔
      (Method.GET = Method.GET ∧ is_static_asset "/favicon.ico" = true)) ∧
    (Omnis.connection_type_new Method.GET "/ultra" false =
      ConnectionType.Regular WaitingRoom.Required) ∧
    (Omnis.connection_type_new Method.GET "/anything" true =
      ConnectionType.Regular WaitingRoom.Required) ∧
    (Omnis.connection_type_new Method.POST "/ultra" false =
      ConnectionType.Regular WaitingRoom.Skip) :=
  ⟨(C4_classifier Method.GET "/favicon.ico" false).1,
   (C4_classifier Method.GET "/ultra" false).2.1,
   (C4_classifier Method.GET "/anything" true).2.2.1
     (by decide) (by decide) (by decide) (by decide),
   (C4_classifier Method.POST "/ultra" false).2.2.2.1
     (by decide) (by decide) (by decide) (by decide)⟩

/-! Request dispatcher control flow (src/src/omnis.rs omnis_studio_upstream
and src/src/reverse_proxy.rs omnis_studio_reverse_proxy). The external
effects (queue scripts, permit acquisition, the upstream HTTP call) are
abstracted as their already-resolved results; the embedding keeps the exact
branch structure that selects the response status and body. -/

/-- QueuePosition as the dispatcher sees it after id_position with
create = true (src/src/queue/control.rs lines 455-459 and
src/src/waiting_room.rs lines 79-83): position 0 means the store, n ≥ 1 a
queue slot; NotPresent is unreachable on this path. -/
inductive QueuePosition where
  | Store
  | Queue (n : Nat)
  deriving DecidableEq, Repr

/-- Response body selected by the dispatcher. -/
inductive ResponseBody where
  | NotFound
  | WaitingPage
  | ServiceUnavailable
  | Upstream
  deriving DecidableEq, Repr

namespace Omnis

/-- Control flow of omnis_studio_upstream (src/src/omnis.rs lines 275-352
and 434): Reject returns 404 Not Found; on the waiting-room path a queued
position returns 503 with the cached waiting page; a missing connection
permit returns 503 Service Unavailable; otherwise the proxied response
carries the upstream status. -/
def dispatch (ct : ConnectionType) (pos : QueuePosition)
    (permit : Option String) (upstream_status : Nat) : Nat × ResponseBody :=
  if ct = ConnectionType.Reject then (404, ResponseBody.NotFound)
  else if ct.requires_waiting_room then
    match pos with
    | QueuePosition.Queue _ => (503, ResponseBody.WaitingPage)
    | QueuePosition.Store =>
        match permit with
        | none => (503, ResponseBody.ServiceUnavailable)
        | some _ => (upstream_status, ResponseBody.Upstream)
  else
    match permit with
    | none => (503, ResponseBody.ServiceUnavailable)
    | some _ => (upstream_status, ResponseBody.Upstream)

end Omnis

namespace ReverseProxy

/-- Control flow of the legacy omnis_studio_reverse_proxy
(src/src/reverse_proxy.rs lines 91-155): identical to the live dispatcher
except that a queued position returns StatusCode::OK (200) with the waiting
page (line 121). -/
def dispatch (ct : ConnectionType) (pos : QueuePosition)
    (permit : Option String) (upstream_status : Nat) : Nat × ResponseBody :=
  if ct = ConnectionType.Reject then (404, ResponseBody.NotFound)
  else if ct.requires_waiting_room then
    match pos with
    | QueuePosition.Queue _ => (200, ResponseBody.WaitingPage)
    | QueuePosition.Store =>
        match permit with
        | none => (503, ResponseBody.ServiceUnavailable)
        | some _ => (upstream_status, ResponseBody.Upstream)
  else
    match permit with
    | none => (503, ResponseBody.ServiceUnavailable)
    | some _ => (upstream_status, ResponseBody.Upstream)

end ReverseProxy

/-- Claim C2 (counterexample): the claim says the dispatcher returns 503 with
the waiting-page body whenever the session is queued, but the cited legacy
handler omnis_studio_reverse_proxy returns status 200 with the waiting page
for a queued sticky session. -/
theorem C2_counterexample :
    ReverseProxy.dispatch ConnectionType.StickySession (QueuePosition.Queue 1)
        none 200 = (200, ResponseBody.WaitingPage) ∧
    (ReverseProxy.dispatch ConnectionType.StickySession (QueuePosition.Queue 1)
        none 200).1 ≠ 503 := by
  refine ⟨rfl, by decide⟩

/-- Claim C2 (amended): for the dispatcher wired into the app
(omnis_studio_upstream in src/src/omnis.rs), Reject yields 404 Not Found, a
queued position on a waiting-room path yields 503 with the waiting-page body,
a missing connection permit yields 503 Service Unavailable, and an admitted
proxied request returns the upstream status; the legacy reverse_proxy.rs
handler instead returns 200 with the waiting page for queued sessions. -/
theorem C2_dispatch (ct : ConnectionType) (pos : QueuePosition)
    (permit : Option String) (st : Nat) :
    (ct = ConnectionType.Reject →
      Omnis.dispatch ct pos permit st = (404, ResponseBody.NotFound)) ∧
    (ct.requires_waiting_room = true → ∀ n, pos = QueuePosition.Queue n →
      Omnis.dispatch ct pos permit st = (503, ResponseBody.WaitingPage)) ∧
    (ct ≠ ConnectionType.Reject →
      (ct.requires_waiting_room = false ∨ pos = QueuePosition.Store) →
      permit = none →
      Omnis.dispatch ct pos permit st = (503, ResponseBody.ServiceUnavailable)) ∧
    (∀ uri, ct ≠ ConnectionType.Reject →
      (ct.requires_waiting_room = false ∨ pos = QueuePosition.Store) →
      permit = some uri →
      Omnis.dispatch ct pos permit st = (st, ResponseBody.Upstream)) := by
  refine ⟨?_, ?_, ?_, ?_⟩
  · intro h
    unfold Omnis.dispatch
    rw [if_pos h]
  · intro hw n hq
    subst hq
    unfold Omnis.dispatch
    have hne : ct ≠ ConnectionType.Reject := by
      intro h
      subst h
      exact absurd hw (by decide)
    rw [if_neg hne, if_pos hw]
  · intro hne hsw hp
    subst hp
    unfold Omnis.dispatch
    rw [if_neg hne]
    rcases hsw with hw | hs
    · rw [if_neg (by simp [hw])]
    · subst hs
      by_cases hw : ct.requires_waiting_room = true
      · rw [if_pos hw]
      · rw [if_neg hw]
  · intro uri hne hsw hp
    subst hp
    unfold Omnis.dispatch
    rw [if_neg hne]
    rcases hsw with hw | hs
    · rw [if_neg (by simp [hw])]
    · subst hs
      by_cases hw : ct.requires_waiting_room = true
      · rw [if_pos hw]
      · rw [if_neg hw]

/-- Claim C2 (witness): the amended dispatcher claim at concrete inputs, one
per branch. -/
theorem C2_witness :
    Omnis.dispatch ConnectionType.Reject QueuePosition.Store none 200 =
      (404, ResponseBody.NotFound) ∧
    Omnis.dispatch (ConnectionType.Regular WaitingRoom.Required)
      (QueuePosition.Queue 3) none 200 = (503, ResponseBody.WaitingPage) ∧
    Omnis.dispatch (ConnectionType.Regular WaitingRoom.Required)
      QueuePosition.Store none 200 = (503, ResponseBody.ServiceUnavailable) ∧
    Omnis.dispatch (ConnectionType.Regular WaitingRoom.Required)
      QueuePosition.Store (some "http://a") 234 = (234, ResponseBody.Upstream) :=
  ⟨(C2_dispatch ConnectionType.Reject QueuePosition.Store none 200).1 rfl,
   (C2_dispatch (ConnectionType.Regular WaitingRoom.Required)
      (QueuePosition.Queue 3) none 200).2.1 rfl 3 rfl,
   (C2_dispatch (ConnectionType.Regular WaitingRoom.Required)
      QueuePosition.Store none 200).2.2.1 (by decide) (Or.inr rfl) rfl,
   (C2_dispatch (ConnectionType.Regular WaitingRoom.Required)
      QueuePosition.Store (some "http://a") 234).2.2.2 "http://a"
      (by decide) (Or.inr rfl) rfl⟩

/-! Queue-ID extraction (src/src/waiting_room.rs lines 41-64). -/

/-- QueueId (src/src/waiting_room.rs lines 11-15). -/
inductive QueueId where
  | New (id : Nat)
  | Existing (id : Nat)
  deriving DecidableEq, Repr

/-- extract_queue_id (src/src/waiting_room.rs lines 41-64). The decrypted
cookie is modelled as an outer Option (cookie present or not) around the
already-resolved result of Uuid::parse_str on its content (the uuid crate is
an external collaborator); fresh is the Uuid the surrounding code obtains
from queue.new_id(). A present cookie whose content fails UUID parsing is
logged and treated exactly like a missing cookie: a fresh QID is minted and
returned as New. No error value exists on this path. -/
def extract_queue_id (cookie : Option (Option Nat)) (fresh : Nat) : QueueId :=
  match cookie with
  | some (some parsed) => QueueId.Existing parsed
  | some none => QueueId.New fresh
  | none => QueueId.New fresh

/-- Claim C7 (counterexample): the claim says a request whose ID cookie
decrypts to a non-QID returns status 400, but extraction of such a cookie
yields a fresh New QID (no error), and the dispatcher then proceeds through
the normal flow: at a concrete such request admitted to the store it returns
the upstream status 200, not 400. -/
theorem C7_counterexample :
    extract_queue_id (some none) 7 = QueueId.New 7 ∧
    Omnis.dispatch (ConnectionType.Regular WaitingRoom.Required)
      QueuePosition.Store (some "http://a") 200 = (200, ResponseBody.Upstream) ∧
    (Omnis.dispatch (ConnectionType.Regular WaitingRoom.Required)
      QueuePosition.Store (some "http://a") 200).1 ≠ 400 := by
  refine ⟨rfl, rfl, by decide⟩

/-- Claim C7 (amended): a request whose ID cookie decrypts but whose content
is not a valid QID has a fresh QID minted (extract_queue_id returns New) and
proceeds through the normal dispatch flow; no 400 is produced — the
dispatcher only ever returns 404, 503, or the upstream status, so its status
is 400 only if the upstream itself answered 400. The
Error::QueueIdInvalid-to-400 mapping in src/src/errors.rs is never reached
from this path. -/
theorem C7_invalid_cookie_mints_new (fresh : Nat) (ct : ConnectionType)
    (pos : QueuePosition) (permit : Option String) (st : Nat) :
    extract_queue_id (some none) fresh = QueueId.New fresh ∧
    (st ≠ 400 → (Omnis.dispatch ct pos permit st).1 ≠ 400) := by
  refine ⟨rfl, ?_⟩
  intro hst
  unfold Omnis.dispatch
  by_cases h1 : ct = ConnectionType.Reject
  · rw [if_pos h1]
    decide
  · rw [if_neg h1]
    by_cases h2 : ct.requires_waiting_room = true
    · rw [if_pos h2]
      match pos with
      | QueuePosition.Queue n => simp
      | QueuePosition.Store =>
          match permit with
          | none => simp
          | some _ => exact hst
    · rw [if_neg h2]
      match permit with
      | none => simp
      | some _ => exact hst

/-- Claim C7 (witness): the amended claim at a concrete request whose cookie
content is invalid. -/
theorem C7_witness :
    extract_queue_id (some none) 42 = QueueId.New 42 ∧
    (Omnis.dispatch (ConnectionType.Regular WaitingRoom.Required)
      QueuePosition.Store (some "http://a") 200).1 ≠ 400 :=
  ⟨(C7_invalid_cookie_mints_new 42 (ConnectionType.Regular WaitingRoom.Required)
      QueuePosition.Store (some "http://a") 200).1,
   (C7_invalid_cookie_mints_new 42 (ConnectionType.Regular WaitingRoom.Required)
      QueuePosition.Store (some "http://a") 200).2 (by decide)⟩

/-! Event throttling (src/src/queue/control.rs). -/

/-- QueueEvent, the closed event set. -/
inductive QueueEvent where
  | SettingsChanged
  | WaitingPageChanged
  | QueueAdded
  | QueueExpired
  | QueueRemoved
  | StoreAdded
  | StoreExpired
  deriving DecidableEq, Repr

/-- HashMap::get on the throttle buffer, modelled over an association list. -/
def buffer_get (buf : List (QueueEvent × Nat)) (e : QueueEvent) : Option Nat :=
  (buf.find? (fun p => p.1 == e)).map (fun p => p.2)

/-- HashMap::insert on the throttle buffer: replaces any previous binding
(as an association list, the new binding shadows and the old one is
dropped). -/
def buffer_insert (buf : List (QueueEvent × Nat)) (e : QueueEvent) (t : Nat) :
    List (QueueEvent × Nat) :=
  (e, t) :: buf.filter (fun p => p.1 != e)

/-- QueueControl::emit (src/src/queue/control.rs lines 129-155): if the
throttle buffer holds a last-emit instant for the event and now is within the
emit_throttle window of it, return without sending (early exit); otherwise
send on the broadcast bus (send_ok abstracts whether broadcast::send
succeeded) and, only on success, record (event, now) in the buffer. Returns
the new buffer and whether the event was sent. -/
def emit (emit_throttle : Nat) (buf : List (QueueEvent × Nat))
    (event : QueueEvent) (now : Nat) (send_ok : Bool) :
    List (QueueEvent × Nat) × Bool :=
  match buffer_get buf event with
  | some instant =>
      if now - instant < emit_throttle then (buf, false)
      else if send_ok then (buffer_insert buf event now, true)
      else (buf, false)
  | none =>
      if send_ok then (buffer_insert buf event now, true)
      else (buf, false)

/-- QueueControl::flush_event_throttle_buffer (src/src/queue/control.rs
lines 157-162): retain only the entries still inside the throttle window. -/
def flush_event_throttle_buffer (emit_throttle : Nat)
    (buf : List (QueueEvent × Nat)) (now : Nat) : List (QueueEvent × Nat) :=
  buf.filter (fun p => now - p.2 < emit_throttle)

theorem buffer_get_insert (buf : List (QueueEvent × Nat)) (e : QueueEvent)
    (t : Nat) : buffer_get (buffer_insert buf e t) e = some t := by
  simp [buffer_get, buffer_insert, List.find?]

/-- Claim C8: after a successful emission of event E at time t0, a second
emit of E at any time t1 less than the throttle window after t0 does not send
E on the bus (and leaves the buffer unchanged), provided the buffer entry has
not been flushed in between: the same event is emitted at most once per
throttle window. -/
theorem C8_emit_throttled (throttle : Nat) (buf buf1 : List (QueueEvent × Nat))
    (E : QueueEvent) (t0 t1 : Nat) (send_ok : Bool)
    (h_first : emit throttle buf E t0 true = (buf1, true))
    (h_window : t1 - t0 < throttle) :
    emit throttle buf1 E t1 send_ok = (buf1, false) := by
  have hbuf1 : buf1 = buffer_insert buf E t0 := by
    unfold emit at h_first
    split at h_first
    · split at h_first
      · exact absurd (congrArg Prod.snd h_first) (by simp)
      · split at h_first
        · exact (congrArg Prod.fst h_first).symm
        · exact absurd (congrArg Prod.snd h_first) (by simp)
    · split at h_first
      · exact (congrArg Prod.fst h_first).symm
      · exact absurd (congrArg Prod.snd h_first) (by simp)
  subst hbuf1
  unfold emit
  simp only [buffer_get_insert]
  rw [if_pos h_window]

/-- Claim C8 (witness): a concrete pair of emit calls 40 ticks apart with a
100-tick throttle window; the second call does not send. -/
theorem C8_witness :
    emit 100 (buffer_insert [] QueueEvent.StoreAdded 1000)
      QueueEvent.StoreAdded 1040 true
      = (buffer_insert [] QueueEvent.StoreAdded 1000, false) :=
  C8_emit_throttled 100 [] (buffer_insert [] QueueEvent.StoreAdded 1000)
    QueueEvent.StoreAdded 1000 1040 true (by decide) (by decide)

/-! Ultra-thin request transformation (src/src/omnis.rs lines 36-66 and
437-515, 671-685). Headers are lists of (name, value) pairs; header names
are lowercase by the http crate's HeaderName invariant. -/

/-- UPSTREAM_IGNORE (src/src/omnis.rs lines 37-50). -/
def upstream_ignore : List String :=
  ["accept-encoding", "connection", "proxy-authenticate",
   "proxy-authorization", "te", "trailer", "transfer-encoding", "upgrade",
   "upgrade-insecure-requests"]

/-- ULTRA_THIN_IGNORE (src/src/omnis.rs lines 51-66). -/
def ultra_thin_ignore : List String :=
  ["accept-encoding", "content-length", "content-encoding", "connection",
   "proxy-authenticate", "proxy-authorization", "te", "trailer",
   "transfer-encoding", "upgrade", "upgrade-insecure-requests"]

/-- upstream_header_filter (src/src/omnis.rs lines 437-440): keep a header
unless it is in UPSTREAM_IGNORE or its lowercased name starts with sec. -/
def upstream_header_filter (h : String × String) : Bool :=
  !(upstream_ignore.contains h.1) &&
    !("sec".data.isPrefixOf (lower_chars h.1))

/-- ultra_thin_header_filter (src/src/omnis.rs lines 442-445). -/
def ultra_thin_header_filter (h : String × String) : Bool :=
  !(ultra_thin_ignore.contains h.1) &&
    !("sec".data.isPrefixOf (lower_chars h.1))

/-- ASCII uppercase folding (str::to_uppercase on the ASCII header names). -/
def ascii_upper (c : Char) : Char :=
  if 'a' ≤ c ∧ c ≤ 'z' then Char.ofNat (c.toNat - 32) else c

/-- Header-name transformation applied inside the HTTP_ metadata lines
(src/src/omnis.rs line 497): to_uppercase followed by replacing hyphens with
underscores. -/
def upper_snake (s : String) : String :=
  String.mk (s.data.map (fun c => if c = '-' then '_' else ascii_upper c))

/-- UTF-8 encoding of one character, the byte stream urlencoding and base64
operate on. -/
def utf8_encode_char (c : Char) : List UInt8 :=
  let n := c.toNat
  if n < 0x80 then [UInt8.ofNat n]
  else if n < 0x800 then
    [UInt8.ofNat (0xC0 ||| (n >>> 6)), UInt8.ofNat (0x80 ||| (n &&& 0x3F))]
  else if n < 0x10000 then
    [UInt8.ofNat (0xE0 ||| (n >>> 12)),
     UInt8.ofNat (0x80 ||| ((n >>> 6) &&& 0x3F)),
     UInt8.ofNat (0x80 ||| (n &&& 0x3F))]
  else
    [UInt8.ofNat (0xF0 ||| (n >>> 18)),
     UInt8.ofNat (0x80 ||| ((n >>> 12) &&& 0x3F)),
     UInt8.ofNat (0x80 ||| ((n >>> 6) &&& 0x3F)),
     UInt8.ofNat (0x80 ||| (n &&& 0x3F))]

/-- UTF-8 byte stream of a string. -/
def utf8_bytes (s : String) : List UInt8 :=
  (s.data.map utf8_encode_char).foldr (fun a b => a ++ b) []

/-- Unreserved bytes kept verbatim by urlencoding::encode: ASCII
alphanumerics and hyphen, dot, underscore, tilde. -/
def is_unreserved_byte (b : UInt8) : Bool :=
  (0x30 ≤ b.toNat && b.toNat ≤ 0x39) || (0x41 ≤ b.toNat && b.toNat ≤ 0x5A) ||
    (0x61 ≤ b.toNat && b.toNat ≤ 0x7A) ||
    b.toNat == 0x2D || b.toNat == 0x2E || b.toNat == 0x5F || b.toNat == 0x7E

/-- Uppercase hexadecimal digit. -/
def hex_digit (n : Nat) : Char :=
  if n < 10 then Char.ofNat (48 + n) else Char.ofNat (55 + n)

/-- Percent-encoding of one byte, as urlencoding::encode does it. -/
def percent_encode_byte (b : UInt8) : String :=
  if is_unreserved_byte b then String.singleton (Char.ofNat b.toNat)
  else String.mk ['%', hex_digit (b.toNat / 16), hex_digit (b.toNat % 16)]

/-- urlencoding::encode (src/src/omnis.rs line 498). -/
def percent_encode (s : String) : String :=
  ((utf8_bytes s).map percent_encode_byte).foldl (fun a b => a ++ b) ""

/-- Base64 character of a 6-bit group (the STANDARD alphabet used by
base64::engine::general_purpose::STANDARD). -/
def b64_char (n : Nat) : Char :=
  if n < 26 then Char.ofNat (65 + n)
  else if n < 52 then Char.ofNat (97 + (n - 26))
  else if n < 62 then Char.ofNat (48 + (n - 52))
  else if n = 62 then '+'
  else '/'

/-- STANDARD base64 of a byte list, with padding. -/
def base64_encode_bytes : List UInt8 → String
  | [] => ""
  | [b1] =>
      String.mk [b64_char (b1.toNat >>> 2),
        b64_char ((b1.toNat &&& 0x3) <<< 4), '=', '=']
  | [b1, b2] =>
      String.mk [b64_char (b1.toNat >>> 2),
        b64_char (((b1.toNat &&& 0x3) <<< 4) ||| (b2.toNat >>> 4)),
        b64_char ((b2.toNat &&& 0xF) <<< 2), '=']
  | b1 :: b2 :: b3 :: rest =>
      String.mk [b64_char (b1.toNat >>> 2),
        b64_char (((b1.toNat &&& 0x3) <<< 4) ||| (b2.toNat >>> 4)),
        b64_char (((b2.toNat &&& 0xF) <<< 2) ||| (b3.toNat >>> 6)),
        b64_char (b3.toNat &&& 0x3F)] ++ base64_encode_bytes rest

/-- STANDARD.encode (src/src/omnis.rs line 561). -/
def base64_encode (s : String) : String :=
  base64_encode_bytes (utf8_bytes s)

/-- Vec::join with the ampersand separator. -/
def join_amp : List String → String
  | [] => ""
  | [x] => x
  | x :: y :: rest => x ++ "&" ++ join_amp (y :: rest)

/-- HeaderMap::get modelled on the header list. -/
def header_lookup (hs : List (String × String)) (name : String) :
    Option String :=
  (hs.find? (fun h => h.1 == name)).map (fun h => h.2)

/-- HeaderMap::remove modelled on the header list (drops every value held
under the name). -/
def header_remove (hs : List (String × String)) (name : String) :
    List (String × String) :=
  hs.filter (fun h => h.1 != name)

/-- HeaderMap::insert modelled on the header list (replaces any previous
values under the name). -/
def header_insert (hs : List (String × String)) (name value : String) :
    List (String × String) :=
  header_remove hs name ++ [(name, value)]

/-- Ultra-thin metadata list built inside build_upstream_request
(src/src/omnis.rs lines 478-502): SERVER_TIME, HTTP_METHOD, HTTP_PATH,
REMOTE_ADDR, REMOTE_PORT, then HTTP_QUERY when a query string is present,
then one HTTP_ upper-snake percent-encoded line per retained upstream
header. -/
def build_ultra_thin_info (server_time : Nat) (method : Method)
    (path : String) (remote_addr : String) (remote_port : Nat)
    (query : Option String) (upstream_headers : List (String × String)) :
    List String :=
  let base : List String :=
    ["SERVER_TIME=" ++ toString server_time,
     "HTTP_METHOD=" ++ method.as_str,
     "HTTP_PATH=" ++ path,
     "REMOTE_ADDR=" ++ remote_addr,
     "REMOTE_PORT=" ++ toString remote_port]
  let base := base ++
    (match query with
     | some q => ["HTTP_QUERY=" ++ q]
     | none => [])
  base ++ (upstream_headers.filter ultra_thin_header_filter).map
    (fun h => "HTTP_" ++ upper_snake h.1 ++ "=" ++ percent_encode h.2)

/-- build_omnis_body (src/src/omnis.rs lines 671-685): read the body, append
an ampersand when it is non-empty, then append the joined metadata. -/
def build_omnis_body (body : String) (ultra_thin_info : List String) :
    String :=
  (if body.isEmpty then "" else body ++ "&") ++ join_amp ultra_thin_info

/-- Result of build_upstream_request. The upstream URI is owned by the pool
and only its transformation matters here: uri_query_append records the
metadata appended to the target of an ultra-thin GET; the fallback branch
additionally rewrites the URI path to /ultra, which needs URI parsing and is
not modelled. -/
structure UpstreamRequestResult where
  method : Method
  headers : List (String × String)
  body : String
  uri_query_append : Option String
  deriving DecidableEq, Repr

/-- build_upstream_request (src/src/omnis.rs lines 448-586), the header/body
computation: content type defaults to text/plain; fallback applies when
enabled and the path is neither a JS-client, REST-api, nor static-asset path;
ultra-thin GET appends the metadata to the target; ultra-thin form-urlencoded
POST drops Content-Length and appends the metadata to the body; the fallback
branch forces a form-urlencoded POST, prepends OmnisLibrary and OmnisClass,
and base64-encodes a non-GET body into HTTP_BODY; every other request passes
through with the upstream header filter applied. -/
def build_upstream_request
    (fallback_enabled ultra_thin_inject_headers : Bool)
    (fallback_library fallback_class : String)
    (server_time : Nat) (remote_addr : String) (remote_port : Nat)
    (request_method : Method) (request_path : String) (query : Option String)
    (request_headers upstream_headers : List (String × String))
    (request_body : String) : UpstreamRequestResult :=
  let content_type :=
    match header_lookup request_headers "content-type" with
    | some ct => ct
    | none => "text/plain"
  let use_fallback := fallback_enabled &&
    !(is_javascript_client request_path) && !(is_rest_api request_path) &&
    !(is_static_asset request_path)
  if use_fallback || (is_ultra_thin request_path && ultra_thin_inject_headers)
  then
    let info := build_ultra_thin_info server_time request_method request_path
      remote_addr remote_port query upstream_headers
    if is_ultra_thin request_path && (request_method == Method.GET) then
      { method := request_method
        headers := upstream_headers
        body := request_body
        uri_query_append := some ("&" ++ join_amp info) }
    else if is_ultra_thin request_path && (request_method == Method.POST) &&
        (content_type == "application/x-www-form-urlencoded") then
      { method := request_method
        headers := header_remove upstream_headers "content-length"
        body := build_omnis_body request_body info
        uri_query_append := none }
    else if use_fallback then
      let headers1 := header_remove upstream_headers "content-length"
      let headers2 :=
        header_insert headers1 "content-type"
          "application/x-www-form-urlencoded"
      let info1 := ("OmnisLibrary=" ++ fallback_library) ::
        ("OmnisClass=" ++ fallback_class) :: info
      let info2 :=
        if request_method != Method.GET && !(request_body.isEmpty) then
          info1 ++ ["HTTP_BODY=" ++ base64_encode request_body]
        else info1
      { method := Method.POST
        headers := headers2
        body := build_omnis_body "" info2
        uri_query_append := none }
    else
      { method := request_method
        headers := upstream_headers
        body := request_body
        uri_query_append := none }
  else
    { method := request_method
      headers := upstream_headers.filter upstream_header_filter
      body := request_body
      uri_query_append := none }

/-- Claim C5: for a POST to an ultra-thin path with content type
application/x-www-form-urlencoded and a non-empty body b, the upstream body
is b, an ampersand, then the metadata pairs joined by ampersands
(SERVER_TIME, HTTP_METHOD, HTTP_PATH, REMOTE_ADDR, REMOTE_PORT, the optional
HTTP_QUERY, then HTTP_ upper-snake percent-encoded lines for the retained
headers in order), and the Content-Length header is removed from the
upstream request. -/
theorem C5_post_ultra_body
    (fallback_enabled : Bool) (fallback_library fallback_class : String)
    (server_time : Nat) (remote_addr : String) (remote_port : Nat)
    (request_path : String) (query : Option String)
    (request_headers upstream_headers : List (String × String))
    (request_body : String)
    (h_ultra : is_ultra_thin request_path = true)
    (h_ct : header_lookup request_headers "content-type" =
      some "application/x-www-form-urlencoded")
    (h_body : request_body.isEmpty = false) :
    (build_upstream_request fallback_enabled true fallback_library
        fallback_class server_time remote_addr remote_port Method.POST
        request_path query request_headers upstream_headers
        request_body).body =
      request_body ++ "&" ++ join_amp
        (["SERVER_TIME=" ++ toString server_time,
          "HTTP_METHOD=POST",
          "HTTP_PATH=" ++ request_path,
          "REMOTE_ADDR=" ++ remote_addr,
          "REMOTE_PORT=" ++ toString remote_port] ++
         (match query with
          | some q => ["HTTP_QUERY=" ++ q]
          | none => []) ++
         (upstream_headers.filter ultra_thin_header_filter).map
           (fun h => "HTTP_" ++ upper_snake h.1 ++ "=" ++ percent_encode h.2)) ∧
    (build_upstream_request fallback_enabled true fallback_library
        fallback_class server_time remote_addr remote_port Method.POST
        request_path query request_headers upstream_headers
        request_body).headers =
      header_remove upstream_headers "content-length" ∧
    (∀ p ∈ (build_upstream_request fallback_enabled true fallback_library
        fallback_class server_time remote_addr remote_port Method.POST
        request_path query request_headers upstream_headers
        request_body).headers, p.1 ≠ "content-length") ∧
    (build_upstream_request fallback_enabled true fallback_library
        fallback_class server_time remote_addr remote_port Method.POST
        request_path query request_headers upstream_headers
        request_body).method = Method.POST := by
  have hreq : build_upstream_request fallback_enabled true fallback_library
      fallback_class server_time remote_addr remote_port Method.POST
      request_path query request_headers upstream_headers request_body =
      { method := Method.POST
        headers := header_remove upstream_headers "content-length"
        body := build_omnis_body request_body
          (build_ultra_thin_info server_time Method.POST request_path
            remote_addr remote_port query upstream_headers)
        uri_query_append := none } := by
    unfold build_upstream_request
    rw [h_ct]
    simp only [h_ultra, Bool.and_true, Bool.true_and, Bool.or_true,
      if_true]
    rfl
  refine ⟨?_, ?_, ?_, ?_⟩
  · rw [hreq]
    show build_omnis_body request_body _ = _
    unfold build_omnis_body build_ultra_thin_info
    rw [h_body]
    simp [Method.as_str, String.append_assoc]
  · rw [hreq]
  · rw [hreq]
    intro p hp
    have h2 := List.of_mem_filter hp
    rw [bne_iff_ne] at h2
    exact h2
  · rw [hreq]

/-- Claim C5 (witness): the concrete scenario from the spec, a POST /ultra
with body foo=1 and header x-test set to a b: the upstream body carries the
body, the metadata and the percent-encoded header line, and Content-Length is
gone. -/
theorem C5_witness :
    (build_upstream_request false true "lib" "cls" 12345 "10.0.0.9" 5501
        Method.POST "/ultra" none
        [("content-type", "application/x-www-form-urlencoded"),
         ("content-length", "5")]
        [("content-type", "application/x-www-form-urlencoded"),
         ("content-length", "5"), ("x-test", "a b")]
        "foo=1").body =
      "foo=1" ++ "&" ++ join_amp
        (["SERVER_TIME=" ++ toString (12345 : Nat),
          "HTTP_METHOD=POST",
          "HTTP_PATH=" ++ "/ultra",
          "REMOTE_ADDR=" ++ "10.0.0.9",
          "REMOTE_PORT=" ++ toString (5501 : Nat)] ++
         [] ++
         ([("content-type", "application/x-www-form-urlencoded"),
           ("content-length", "5"),
           ("x-test", "a b")].filter ultra_thin_header_filter).map
           (fun h => "HTTP_" ++ upper_snake h.1 ++ "=" ++ percent_encode h.2)) ∧
    (∀ p ∈ (build_upstream_request false true "lib" "cls" 12345 "10.0.0.9"
        5501 Method.POST "/ultra" none
        [("content-type", "application/x-www-form-urlencoded"),
         ("content-length", "5")]
        [("content-type", "application/x-www-form-urlencoded"),
         ("content-length", "5"), ("x-test", "a b")]
        "foo=1").headers, p.1 ≠ "content-length") :=
  ⟨(C5_post_ultra_body false "lib" "cls" 12345 "10.0.0.9" 5501 "/ultra" none
      [("content-type", "application/x-www-form-urlencoded"),
       ("content-length", "5")]
      [("content-type", "application/x-www-form-urlencoded"),
       ("content-length", "5"), ("x-test", "a b")]
      "foo=1" (by decide) (by decide) (by decide)).1,
   (C5_post_ultra_body false "lib" "cls" 12345 "10.0.0.9" 5501 "/ultra" none
      [("content-type", "application/x-www-form-urlencoded"),
       ("content-length", "5")]
      [("content-type", "application/x-www-form-urlencoded"),
       ("content-length", "5"), ("x-test", "a b")]
      "foo=1" (by decide) (by decide) (by decide)).2.2.1⟩

/-- Concrete evaluation supporting claim C5 on the spec's scenario 6: the
percent-encoded header line for x-test with value a b is HTTP_X_TEST=a%20b,
and the whole upstream body matches the spec's expected shape (content-type
is not in ULTRA_THIN_IGNORE, so its HTTP_CONTENT_TYPE line is retained,
inside the ellipsis of the spec's expected value). -/
theorem C5_concrete_body_eval :
    percent_encode "a b" = "a%20b" ∧
    upper_snake "x-test" = "X_TEST" ∧
    (build_upstream_request false true "lib" "cls" 12345 "10.0.0.9" 5501
        Method.POST "/ultra" none
        [("content-type", "application/x-www-form-urlencoded"),
         ("content-length", "5")]
        [("content-type", "application/x-www-form-urlencoded"),
         ("content-length", "5"), ("x-test", "a b")]
        "foo=1").body =
      "foo=1&SERVER_TIME=12345&HTTP_METHOD=POST&HTTP_PATH=/ultra&REMOTE_ADDR=10.0.0.9&REMOTE_PORT=5501&HTTP_CONTENT_TYPE=application%2Fx-www-form-urlencoded&HTTP_X_TEST=a%20b" := by
  refine ⟨by decide, by decide, by decide⟩

/-! Queue rotation (src/src/queue/scripts.rs Scripts::rotate_full, plus the
legacy src/src/queue.rs Scripts::rotate_full). The redis pipeline itself is
embedded as the ordered list of script invocations it issues; the Lua script
bodies live in the redis_functions assets, which are not under src/, so
their per-key semantics are modelled from the spec below. -/

/-- One server-side script invocation inside a redis pipeline: script name
and its argument list (arguments are serialized to strings). -/
structure ScriptInvocation where
  name : String
  args : List String
  deriving DecidableEq, Repr

/-- Scripts::rotate_full (src/src/queue/scripts.rs lines 226-243): one
atomic pipeline invoking store_timeout with (key_pfx, now), queue_timeout
with (key_pfx, now), then store_promote with (key_pfx) only — the promote
script receives no timestamp argument. -/
def rotate_full_invocations (key_pfx : String) (now : Int) :
    List ScriptInvocation :=
  [{ name := "store_timeout", args := [key_pfx, toString now] },
   { name := "queue_timeout", args := [key_pfx, toString now] },
   { name := "store_promote", args := [key_pfx] }]

/-- The pipeline in Scripts::rotate_full is opened with pipe().atomic()
(src/src/queue/scripts.rs line 230). -/
def rotate_full_atomic : Bool := true

/-- The legacy Scripts::rotate_full (src/src/queue.rs lines 218-238): a
non-atomic pipeline in the order store_timeout, store_promote (with a batch
size), queue_timeout — promotion runs BEFORE queue eviction there. -/
def legacy_rotate_full_invocations (key_pfx : String) (now : Int)
    (batch_size : Nat) : List ScriptInvocation :=
  [{ name := "store_timeout", args := [key_pfx, toString now] },
   { name := "store_promote", args := [key_pfx, toString batch_size] },
   { name := "queue_timeout", args := [key_pfx, toString now] }]

/-- The legacy pipeline never calls .atomic() (src/src/queue.rs
lines 226-231). -/
def legacy_rotate_full_atomic : Bool := false

/-- Modelled from the spec: the per-key queue/store state the Lua scripts
operate on (section 6 key schema) — the FIFO queue_ids list, the store_ids
set, the two deadline maps, and the store capacity scalar. The Lua script
bodies are embedded build-time assets outside src/. -/
structure QState where
  queue_ids : List Nat
  store_ids : List Nat
  queue_expiry_secs : List (Nat × Nat)
  store_expiry_secs : List (Nat × Nat)
  store_capacity : StoreCapacity
  deriving DecidableEq, Repr

/-- Deadline lookup in an expiry map. -/
def expiry_lookup (m : List (Nat × Nat)) (q : Nat) : Option Nat :=
  (m.find? (fun p => p.1 == q)).map (fun p => p.2)

/-- Modelled from the spec: an id is expired when it has a recorded deadline
at or before now (section 4.1: deadline ≤ now). -/
def deadline_expired (m : List (Nat × Nat)) (now q : Nat) : Bool :=
  match expiry_lookup m q with
  | some d => d ≤ now
  | none => false

/-- Modelled from the spec: store_timeout(key_pfx, now) removes every id in
store_ids whose deadline is at or before now (with its deadline entry) and
returns the number removed. The queue keys are untouched. -/
def store_timeout (s : QState) (now : Nat) : QState × Nat :=
  let expired :=
    s.store_ids.filter (fun q => deadline_expired s.store_expiry_secs now q)
  ({ s with
      store_ids := s.store_ids.filter
        (fun q => !(deadline_expired s.store_expiry_secs now q))
      store_expiry_secs := s.store_expiry_secs.filter
        (fun p => !(expired.contains p.1)) },
   expired.length)

/-- Modelled from the spec: queue_timeout(key_pfx, now) removes every id in
queue_ids whose deadline is at or before now (with its deadline entry,
invalidating its cache slot) and returns the number removed. The store keys
are untouched. -/
def queue_timeout (s : QState) (now : Nat) : QState × Nat :=
  let expired :=
    s.queue_ids.filter (fun q => deadline_expired s.queue_expiry_secs now q)
  ({ s with
      queue_ids := s.queue_ids.filter
        (fun q => !(deadline_expired s.queue_expiry_secs now q))
      queue_expiry_secs := s.queue_expiry_secs.filter
        (fun p => !(expired.contains p.1)) },
   expired.length)

/-- Modelled from the spec: whether the store has headroom under the current
capacity (Unlimited always promotes while the queue is non-empty). -/
def capacity_allows (cap : StoreCapacity) (store_len : Nat) : Bool :=
  match cap with
  | .Unlimited => true
  | .Sized n => store_len < n

/-- Result of the promotion loop. -/
structure PromoteResult where
  store : List Nat
  store_expiry : List (Nat × Nat)
  queue : List Nat
  count : Nat
  deriving DecidableEq, Repr

/-- Modelled from the spec: the store_promote loop pops the head of
queue_ids and inserts it into store_ids with deadline now + validated_secs
while the store has headroom, returning the number promoted. -/
def promote_loop (cap : StoreCapacity) (now validated : Nat) :
    List Nat → List Nat → List (Nat × Nat) → PromoteResult
  | [], store, sexp => { store := store, store_expiry := sexp, queue := [], count := 0 }
  | q :: rest, store, sexp =>
      if capacity_allows cap store.length then
        let r := promote_loop cap now validated rest (store ++ [q])
          (sexp ++ [(q, now + validated)])
        { r with count := r.count + 1 }
      else { store := store, store_expiry := sexp, queue := q :: rest, count := 0 }

/-- Modelled from the spec: store_promote(key_pfx) applied to the state. -/
def store_promote (s : QState) (now validated : Nat) : QState × Nat :=
  let r := promote_loop s.store_capacity now validated s.queue_ids
    s.store_ids s.store_expiry_secs
  ({ s with
      store_ids := r.store
      store_expiry_secs := r.store_expiry
      queue_ids := r.queue },
   r.count)

/-- State effect of the rotate_full pipeline, composing the three scripts in
the invocation order of src/src/queue/scripts.rs lines 229-234:
store_timeout, then queue_timeout, then store_promote, the two timeout
scripts sharing one now. Returns the final state with the counts
(store_expired, queue_expired, promoted). -/
def rotate_full_state (s : QState) (now validated : Nat) :
    QState × Nat × Nat × Nat :=
  let r1 := store_timeout s now
  let r2 := queue_timeout r1.1 now
  let r3 := store_promote r2.1 now validated
  (r3.1, r1.2, r2.2, r3.2)

theorem promote_loop_store_mem (cap : StoreCapacity) (now validated : Nat) :
    ∀ (queue store : List Nat) (sexp : List (Nat × Nat)) (x : Nat),
      x ∈ (promote_loop cap now validated queue store sexp).store →
      x ∈ store ∨ x ∈ queue := by
  intro queue
  induction queue with
  | nil =>
      intro store sexp x hx
      exact Or.inl hx
  | cons q rest ih =>
      intro store sexp x hx
      unfold promote_loop at hx
      by_cases hcap : capacity_allows cap store.length = true
      · rw [if_pos hcap] at hx
        simp only at hx
        rcases ih (store ++ [q]) (sexp ++ [(q, now + validated)]) x hx with h | h
        · rcases List.mem_append.mp h with h2 | h2
          · exact Or.inl h2
          · simp only [List.mem_singleton] at h2
            subst h2
            exact Or.inr (List.mem_cons_self _ _)
        · exact Or.inr (List.mem_cons_of_mem _ h)
      · rw [if_neg hcap] at hx
        exact Or.inl hx

theorem promote_loop_queue_mem (cap : StoreCapacity) (now validated : Nat) :
    ∀ (queue store : List Nat) (sexp : List (Nat × Nat)) (x : Nat),
      x ∈ (promote_loop cap now validated queue store sexp).queue →
      x ∈ queue := by
  intro queue
  induction queue with
  | nil =>
      intro store sexp x hx
      simp [promote_loop] at hx
  | cons q rest ih =>
      intro store sexp x hx
      unfold promote_loop at hx
      by_cases hcap : capacity_allows cap store.length = true
      · rw [if_pos hcap] at hx
        simp only at hx
        exact List.mem_cons_of_mem _
          (ih (store ++ [q]) (sexp ++ [(q, now + validated)]) x hx)
      · rw [if_neg hcap] at hx
        exact hx

/-- Claim C3 (counterexample): the claim says all three scripts are invoked
with one shared timestamp now, but the store_promote invocation inside
Scripts::rotate_full carries only the key prefix — no timestamp argument at
all (and the legacy queue.rs rotate_full even runs store_promote before
queue_timeout, without an atomic pipeline). -/
theorem C3_counterexample :
    ((rotate_full_invocations "bouncer" 1000).map ScriptInvocation.args) =
      [["bouncer", "1000"], ["bouncer", "1000"], ["bouncer"]] ∧
    "1000" ∉ ((rotate_full_invocations "bouncer" 1000).get ⟨2, by decide⟩).args ∧
    ((legacy_rotate_full_invocations "bouncer" 1000 5).map
      ScriptInvocation.name) =
      ["store_timeout", "store_promote", "queue_timeout"] ∧
    legacy_rotate_full_atomic = false := by
  refine ⟨by decide, by decide, by decide, rfl⟩

/-- Claim C3 (amended): Scripts::rotate_full applies exactly the three
scripts store_timeout, queue_timeout, store_promote, in that order, inside
one atomic pipeline; the two timeout scripts are invoked with one shared
timestamp now while store_promote receives only the key prefix.
Consequently, over the spec-modelled script semantics, a queue entry whose
deadline expires at this tick is removed by queue_timeout before
store_promote runs, so it is never promoted into the store in the same
tick. -/
theorem C3_rotate_full (key_pfx : String) (now : Int) (s : QState)
    (tick validated q d : Nat)
    (hd : expiry_lookup s.queue_expiry_secs q = some d)
    (hdle : d ≤ tick)
    (hstore : q ∉ s.store_ids) :
    ((rotate_full_invocations key_pfx now).map ScriptInvocation.name =
      ["store_timeout", "queue_timeout", "store_promote"]) ∧
    rotate_full_atomic = true ∧
    ((rotate_full_invocations key_pfx now).map ScriptInvocation.args =
      [[key_pfx, toString now], [key_pfx, toString now], [key_pfx]]) ∧
    q ∉ (rotate_full_state s tick validated).1.store_ids ∧
    q ∉ (rotate_full_state s tick validated).1.queue_ids := by
  refine ⟨rfl, rfl, rfl, ?_, ?_⟩
  all_goals {
    have hs1store : q ∉ (store_timeout s tick).1.store_ids := by
      intro hmem
      exact hstore (List.mem_of_mem_filter hmem)
    have hs1q : (store_timeout s tick).1.queue_ids = s.queue_ids := rfl
    have hs1qe : (store_timeout s tick).1.queue_expiry_secs =
      s.queue_expiry_secs := rfl
    have hexp : deadline_expired
        (store_timeout s tick).1.queue_expiry_secs tick q = true := by
      rw [hs1qe]
      unfold deadline_expired
      rw [hd]
      simpa using hdle
    have hs2q : q ∉ (queue_timeout (store_timeout s tick).1 tick).1.queue_ids := by
      intro hmem
      have h2 := List.of_mem_filter hmem
      rw [hexp] at h2
      exact absurd h2 (by decide)
    have hs2store : (queue_timeout (store_timeout s tick).1 tick).1.store_ids =
      (store_timeout s tick).1.store_ids := rfl
    have hrot : (rotate_full_state s tick validated).1 =
      (store_promote (queue_timeout (store_timeout s tick).1 tick).1
        tick validated).1 := rfl
    first
    | -- store_ids goal
      (rw [hrot]
       intro hmem
       rcases promote_loop_store_mem _ _ _ _ _ _ _ hmem with h | h
       · rw [hs2store] at h
         exact hs1store h
       · exact hs2q h)
    | -- queue_ids goal
      (rw [hrot]
       intro hmem
       exact hs2q (promote_loop_queue_mem _ _ _ _ _ _ _ hmem))
  }

/-- Claim C3 (witness): the amended claim at a concrete state — an entry q=9
in the queue with deadline 500 expiring at tick 1000 alongside a younger
entry, store capacity 5: after the rotation q=9 is in neither structure. -/
theorem C3_witness :
    ((rotate_full_invocations "bouncer" 1000).map ScriptInvocation.name =
      ["store_timeout", "queue_timeout", "store_promote"]) ∧
    rotate_full_atomic = true ∧
    (9 ∉ (rotate_full_state
      { queue_ids := [9, 4], store_ids := [2],
        queue_expiry_secs := [(9, 500), (4, 2000)],
        store_expiry_secs := [(2, 2000)],
        store_capacity := StoreCapacity.Sized 5 } 1000 600).1.store_ids) ∧
    (9 ∉ (rotate_full_state
      { queue_ids := [9, 4], store_ids := [2],
        queue_expiry_secs := [(9, 500), (4, 2000)],
        store_expiry_secs := [(2, 2000)],
        store_capacity := StoreCapacity.Sized 5 } 1000 600).1.queue_ids) :=
  ⟨(C3_rotate_full "bouncer" 1000
      { queue_ids := [9, 4], store_ids := [2],
        queue_expiry_secs := [(9, 500), (4, 2000)],
        store_expiry_secs := [(2, 2000)],
        store_capacity := StoreCapacity.Sized 5 } 1000 600 9 500
      (by decide) (by decide) (by decide)).1,
   (C3_rotate_full "bouncer" 1000
      { queue_ids := [9, 4], store_ids := [2],
        queue_expiry_secs := [(9, 500), (4, 2000)],
        store_expiry_secs := [(2, 2000)],
        store_capacity := StoreCapacity.Sized 5 } 1000 600 9 500
      (by decide) (by decide) (by decide)).2.1,
   (C3_rotate_full "bouncer" 1000
      { queue_ids := [9, 4], store_ids := [2],
        queue_expiry_secs := [(9, 500), (4, 2000)],
        store_expiry_secs := [(2, 2000)],
        store_capacity := StoreCapacity.Sized 5 } 1000 600 9 500
      (by decide) (by decide) (by decide)).2.2.2.1,
   (C3_rotate_full "bouncer" 1000
      { queue_ids := [9, 4], store_ids := [2],
        queue_expiry_secs := [(9, 500), (4, 2000)],
        store_expiry_secs := [(2, 2000)],
        store_capacity := StoreCapacity.Sized 5 } 1000 600 9 500
      (by decide) (by decide) (by decide)).2.2.2.2⟩

/-- Claim C10: serializing Unlimited produces 0, the same number as
serializing Sized(0), so the serialize-then-deserialize round trip maps
Unlimited to Sized(0) rather than back to Unlimited, while the external-store
encoding (From StoreCapacity for isize) sends Unlimited to -1. -/
theorem C10_serialize_roundtrip :
    StoreCapacity.serialize .Unlimited = StoreCapacity.serialize (.Sized 0) ∧
    StoreCapacity.serialize .Unlimited = 0 ∧
    StoreCapacity.deserialize_i64 (StoreCapacity.serialize .Unlimited) =
      StoreCapacity.Sized 0 ∧
    StoreCapacity.Sized 0 ≠ StoreCapacity.Unlimited ∧
    StoreCapacity.isize_from .Unlimited = -1 := by
  refine ⟨rfl, rfl, rfl, by decide, rfl⟩

end OmnisBouncer
